import Mathlib

/-!
Shallow embedding of the Jetzy travel-assistant conversation pipeline
(`src/api/chatgpt.py`, `src/travel_handler.py`, `src/enhanced_conversation.py`,
`src/utils/context.py`, `src/link_processor.py`) together with theorems that
settle the frozen specification claims about it.

Python strings are modelled as Lean `String` / `List Char`; Python `None` /
missing dict keys as `Option`; a Python function that may raise is modelled
as returning `Except String α` where the error value stands for the raised
exception (its message or type name).
-/

namespace Jetzy

/-! ### Generic string helpers (Python `str` operations on ASCII text) -/

/-- Python-style truthiness of an optional string: `None` and `""` are falsy. -/
def isFalsy : Option String → Bool
  | none => true
  | some s => s = ""

/-- `lhs` is a prefix of `cs` (character lists). -/
def startsWithL : List Char → List Char → Bool
  | [], _ => true
  | _ :: _, [] => false
  | a :: as, c :: cs => a = c && startsWithL as cs

/-- Substring containment on character lists (Python `needle in hay`). -/
def containsL (needle : List Char) : List Char → Bool
  | [] => startsWithL needle []
  | c :: cs => startsWithL needle (c :: cs) || containsL needle cs

/-- Substring containment on strings (Python `needle in hay`). -/
def containsStr (hay needle : String) : Bool :=
  containsL needle.toList hay.toList

/-- Python `str.lower()` (ASCII). -/
def pyLower (s : String) : String :=
  String.mk (s.toList.map Char.toLower)

/-- Python `str.upper()` (ASCII). -/
def pyUpper (s : String) : String :=
  String.mk (s.toList.map Char.toUpper)

/-- Python whitespace class `\s` (also what `str.strip()` removes). -/
def isSpaceCh (c : Char) : Bool :=
  c = ' ' || c = '\t' || c = '\n' || c = '\x0d' || c = '\x0b' || c = '\x0c'

/-- Python `str.strip()` on character lists. -/
def stripL (cs : List Char) : List Char :=
  ((cs.dropWhile isSpaceCh).reverse.dropWhile isSpaceCh).reverse

/-- Python `str.strip()`. -/
def stripStr (s : String) : String :=
  String.mk (stripL s.toList)

/-- Python `str.replace(' ', '+')`. -/
def replaceSpacePlus (s : String) : String :=
  String.mk (s.toList.map (fun c => if c = ' ' then '+' else c))

/-- Python `str.find(ch)`: index of first occurrence, `-1` when absent. -/
def findCh (ch : Char) (cs : List Char) : Int :=
  match cs with
  | [] => -1
  | c :: rest =>
    if c = ch then 0
    else
      let r := findCh ch rest
      if r < 0 then -1 else r + 1

/-- Python `str.rfind(ch)`: index of last occurrence, `-1` when absent. -/
def rfindCh (ch : Char) (cs : List Char) : Int :=
  match cs with
  | [] => -1
  | c :: rest =>
    let r := rfindCh ch rest
    if 0 ≤ r then r + 1
    else if c = ch then 0 else -1

/-! ### ModelGateway: `ChatGPTClient.generate_response` (`src/api/chatgpt.py`)

The per-model API call (`_make_api_request`) is an external network
collaborator; it is modelled as an oracle
`call : String → Except String String` from a model identity to either a
response or a raised error. `generate_response` additionally returns the
trace of model identities attempted, in order, so that retry behaviour is
observable. -/

/-- The hard-coded first fallback model identity. -/
def fallbackModel : String := "gpt-3.5-turbo-0125"

/-- The hard-coded final generic fallback model identity. -/
def genericModel : String := "gpt-3.5-turbo"

/-- `ChatGPTClient.generate_response`: try the requested model; on failure try
`"gpt-3.5-turbo-0125"` (only when it differs from the requested model); on
failure try `"gpt-3.5-turbo"` unconditionally; if that also fails re-raise the
original (primary) error.  Returns the result paired with the list of model
identities attempted, in order. -/
def generate_response (call : String → Except String String) (model : String) :
    Except String String × List String :=
  match call model with
  | .ok r => (.ok r, [model])
  | .error e =>
    let step1 : Option String × List String :=
      if model = fallbackModel then (none, [model])
      else
        match call fallbackModel with
        | .ok r => (some r, [model, fallbackModel])
        | .error _ => (none, [model, fallbackModel])
    match step1 with
    | (some r, trace) => (.ok r, trace)
    | (none, trace) =>
      match call genericModel with
      | .ok r => (.ok r, trace ++ [genericModel])
      | .error _ => (.error e, trace ++ [genericModel])

/-! ### Dates and ISO parsing

`datetime.date` / `datetime.datetime` values as used by the travel handler.
`date.fromisoformat` / `datetime.fromisoformat` are Python standard-library
collaborators; they are modelled on the input grammar documented for them
(`YYYY-MM-DD`, and `YYYY-MM-DD*HH[:MM[:SS]]` with an arbitrary separator
character; fractional seconds and timezone offsets are not modelled, none of
the claims involves them). -/

/-- A Python `datetime.date`. -/
structure PyDate where
  year : Nat
  month : Nat
  day : Nat
deriving DecidableEq, Repr

/-- A Python `datetime.datetime` (no microseconds / tzinfo). -/
structure PyDateTime where
  date : PyDate
  hour : Nat
  minute : Nat
  second : Nat
deriving DecidableEq, Repr

/-- Gregorian leap-year rule used by `datetime`. -/
def isLeapYear (y : Nat) : Bool :=
  y % 4 = 0 && (y % 100 ≠ 0 || y % 400 = 0)

/-- Days in a month of a given year. -/
def daysInMonth (y m : Nat) : Nat :=
  if m = 2 then (if isLeapYear y then 29 else 28)
  else if m = 4 || m = 6 || m = 9 || m = 11 then 30
  else 31

/-- Validity of a calendar date as checked by `datetime.date`. -/
def validDate (y m d : Nat) : Bool :=
  1 ≤ y && y ≤ 9999 && 1 ≤ m && m ≤ 12 && 1 ≤ d && d ≤ daysInMonth y m

/-- `date + timedelta(days=1)`. -/
def nextDay (d : PyDate) : PyDate :=
  if d.day < daysInMonth d.year d.month then ⟨d.year, d.month, d.day + 1⟩
  else if d.month < 12 then ⟨d.year, d.month + 1, 1⟩
  else ⟨d.year + 1, 1, 1⟩

/-- ASCII digit test. -/
def isDigitCh (c : Char) : Bool :=
  '0' ≤ c && c ≤ '9'

/-- Numeric value of an ASCII digit. -/
def digitVal (c : Char) : Nat :=
  c.toNat - 48

/-- `date.fromisoformat` on a character list: exactly `YYYY-MM-DD`, validated. -/
def pyDateFromCharsISO (cs : List Char) : Option PyDate :=
  match cs with
  | [y1, y2, y3, y4, '-', m1, m2, '-', d1, d2] =>
    if isDigitCh y1 && isDigitCh y2 && isDigitCh y3 && isDigitCh y4 &&
       isDigitCh m1 && isDigitCh m2 && isDigitCh d1 && isDigitCh d2 then
      let y := digitVal y1 * 1000 + digitVal y2 * 100 + digitVal y3 * 10 + digitVal y4
      let m := digitVal m1 * 10 + digitVal m2
      let d := digitVal d1 * 10 + digitVal d2
      if validDate y m d then some ⟨y, m, d⟩ else none
    else none
  | _ => none

/-- `date.fromisoformat`. -/
def pyDateFromISO (s : String) : Option PyDate :=
  pyDateFromCharsISO s.toList

/-- Time-of-day part of `datetime.fromisoformat`: `HH`, `HH:MM` or `HH:MM:SS`. -/
def pyTimeFromChars (cs : List Char) : Option (Nat × Nat × Nat) :=
  match cs with
  | [h1, h2] =>
    if isDigitCh h1 && isDigitCh h2 && digitVal h1 * 10 + digitVal h2 ≤ 23 then
      some (digitVal h1 * 10 + digitVal h2, 0, 0)
    else none
  | [h1, h2, ':', m1, m2] =>
    if isDigitCh h1 && isDigitCh h2 && isDigitCh m1 && isDigitCh m2 &&
       digitVal h1 * 10 + digitVal h2 ≤ 23 && digitVal m1 * 10 + digitVal m2 ≤ 59 then
      some (digitVal h1 * 10 + digitVal h2, digitVal m1 * 10 + digitVal m2, 0)
    else none
  | [h1, h2, ':', m1, m2, ':', s1, s2] =>
    if isDigitCh h1 && isDigitCh h2 && isDigitCh m1 && isDigitCh m2 &&
       isDigitCh s1 && isDigitCh s2 &&
       digitVal h1 * 10 + digitVal h2 ≤ 23 && digitVal m1 * 10 + digitVal m2 ≤ 59 &&
       digitVal s1 * 10 + digitVal s2 ≤ 59 then
      some (digitVal h1 * 10 + digitVal h2, digitVal m1 * 10 + digitVal m2,
            digitVal s1 * 10 + digitVal s2)
    else none
  | _ => none

/-- `datetime.fromisoformat`: a bare date (midnight), or a date followed by one
arbitrary separator character and a time of day. -/
def pyDatetimeFromISO (s : String) : Option PyDateTime :=
  let cs := s.toList
  if cs.length = 10 then
    (pyDateFromCharsISO cs).map (fun d => ⟨d, 0, 0, 0⟩)
  else if 11 < cs.length then
    match pyDateFromCharsISO (cs.take 10), pyTimeFromChars (cs.drop 11) with
    | some d, some (h, mi, se) => some ⟨d, h, mi, se⟩
    | _, _ => none
  else none

/-! ### `TravelHandler` (`src/travel_handler.py`)

Extracted entities are a heterogeneous Python dict; the slots the handler
reads are modelled as optional typed fields (`none` = key absent).  The domain
search clients are external collaborators, modelled as oracles from the typed
request to either a response payload (opaque `String`) or a raised error.
Pydantic request models validate their `ge` field constraints; a violated
constraint raises, modelled as `Except.error`.  Each handler also reports how
many provider `search` calls it issued. -/

/-- The slot map produced by entity extraction, as read by the handlers. -/
structure Entities where
  intent : Option String := none
  origin : Option String := none
  destination : Option String := none
  departure_date : Option String := none
  return_date : Option String := none
  location : Option String := none
  cabin_class : Option String := none
  cuisines : Option (List String) := none
  price_range : Option (List String) := none
  transport_modes : Option (List String) := none
  adults : Option Int := none
  children : Option Int := none
  infants : Option Int := none
  radius_km : Option Rat := none
  open_now : Option Bool := none
  direct_flights_only : Option Bool := none
deriving DecidableEq, Repr

/-- `models.flights.FlightSearchReqeust` (source spelling). -/
structure FlightSearchReqeust where
  origin : String
  destination : String
  departure_date : PyDate
  return_date : Option PyDate
  adults : Int
  children : Int
  infants : Int
  cabin_class : String
  direct_flights_only : Bool
deriving DecidableEq, Repr

/-- Pydantic construction of `FlightSearchReqeust`: `adults ≥ 1`,
`children ≥ 0`, `infants ≥ 0`, otherwise a `ValidationError` is raised. -/
def mkFlightSearchReqeust (origin destination : String) (departure_date : PyDate)
    (return_date : Option PyDate) (adults children infants : Int)
    (cabin_class : String) (direct_flights_only : Bool) :
    Except String FlightSearchReqeust :=
  if 1 ≤ adults && 0 ≤ children && 0 ≤ infants then
    .ok ⟨origin, destination, departure_date, return_date, adults, children,
         infants, cabin_class, direct_flights_only⟩
  else .error "ValidationError"

/-- `models.dining.RestaurantSearchRequest` (no `ge` constraints). -/
structure RestaurantSearchRequest where
  location : String
  radius_km : Rat
  cuisines : Option (List String)
  price_range : Option (List String)
  open_now : Option Bool
deriving DecidableEq, Repr

/-- `models.transport.TransportSearchRequest`. -/
structure TransportSearchRequest where
  origin : String
  destination : String
  departure_date : PyDateTime
  modes : Option (List String)
  adults : Int
  children : Int
deriving DecidableEq, Repr

/-- Pydantic construction of `TransportSearchRequest`: `adults ≥ 1`,
`children ≥ 0`. -/
def mkTransportSearchRequest (origin destination : String)
    (departure_date : PyDateTime) (modes : Option (List String))
    (adults children : Int) : Except String TransportSearchRequest :=
  if 1 ≤ adults && 0 ≤ children then
    .ok ⟨origin, destination, departure_date, modes, adults, children⟩
  else .error "ValidationError"

/-- The member names of the `TransportMode` enum. -/
def transportModeNames : List String :=
  ["TRAIN", "BUS", "FLIGHT", "CAR", "FERRY", "SUBWAY", "WALK"]

/-- `getattr(TransportMode, name).value` for the names `hasattr` accepts. -/
def transportModeValue (name : String) : Option String :=
  if name ∈ transportModeNames then some (pyLower name) else none

/-- The domain search clients configured in `TravelHandler.__init__`, reduced
to the ones actually used (`skyscanner`, `yelp`, `rome2rio`), as oracles. -/
structure Providers where
  flightSearch : FlightSearchReqeust → Except String String
  restaurantSearch : RestaurantSearchRequest → Except String String
  transportSearch : TransportSearchRequest → Except String String

/-- The `{type, data, message}` envelope returned by the dispatcher.  `data`
distinguishes a missing `"data"` key (`none`) from a key holding `None`
(`some none`); `message` is `none` when the `"message"` key is absent. -/
structure Envelope where
  type : String
  data : Option (Option String)
  message : Option String
deriving DecidableEq, Repr

/-- `TravelHandler._parse_date`. -/
def parse_date (dateStr : Option String) : Option PyDate :=
  match dateStr with
  | none => none
  | some s => if s = "" then none else pyDateFromISO s

/-- `TravelHandler._parse_datetime`: try `datetime.fromisoformat` first; on
failure fall back to `_parse_date` and combine a successful date with 12:00. -/
def parse_datetime (datetimeStr : Option String) : Option PyDateTime :=
  match datetimeStr with
  | none => none
  | some s =>
    if s = "" then none
    else
      match pyDatetimeFromISO s with
      | some dt => some dt
      | none =>
        match parse_date (some s) with
        | some d => some ⟨d, 12, 0, 0⟩
        | none => none

/-- `TravelHandler._handle_flight_search`; also counts provider calls. -/
def handle_flight_search (po : Providers) (today : PyDate) (entities : Entities) :
    Except String Envelope × Nat :=
  if isFalsy entities.origin || isFalsy entities.destination then
    (.ok ⟨"flight", some none, some "Missing origin or destination for flight search"⟩, 0)
  else
    let departure_date := parse_date entities.departure_date
    let return_date := parse_date entities.return_date
    let departure_date := departure_date.getD (nextDay today)
    match mkFlightSearchReqeust (entities.origin.getD "") (entities.destination.getD "")
        departure_date return_date (entities.adults.getD 1) (entities.children.getD 0)
        (entities.infants.getD 0) (entities.cabin_class.getD "economy")
        (entities.direct_flights_only.getD false) with
    | .error e => (.error e, 0)
    | .ok request =>
      match po.flightSearch request with
      | .ok response =>
        (.ok ⟨"flight", some (some response), some "Flight options retrieved successfully"⟩, 1)
      | .error e => (.error e, 1)

/-- `TravelHandler._handle_restaurant_search`; also counts provider calls. -/
def handle_restaurant_search (po : Providers) (entities : Entities) :
    Except String Envelope × Nat :=
  if isFalsy entities.location then
    (.ok ⟨"restaurant", some none, some "Missing location for restaurant search"⟩, 0)
  else
    let request : RestaurantSearchRequest :=
      ⟨entities.location.getD "", entities.radius_km.getD 5, entities.cuisines,
       entities.price_range, entities.open_now⟩
    match po.restaurantSearch request with
    | .ok response =>
      (.ok ⟨"restaurant", some (some response), some "Restaurant options retrieved successfully"⟩, 1)
    | .error e => (.error e, 1)

/-- `TravelHandler._handle_transport_search`; also counts provider calls. -/
def handle_transport_search (po : Providers) (today : PyDate) (entities : Entities) :
    Except String Envelope × Nat :=
  if isFalsy entities.origin || isFalsy entities.destination then
    (.ok ⟨"transport", some none, some "Missing origin or destination for transport search"⟩, 0)
  else
    let departure_date := parse_datetime entities.departure_date
    let departure_date := departure_date.getD ⟨nextDay today, 12, 0, 0⟩
    let modes : Option (List String) :=
      match entities.transport_modes with
      | none => none
      | some ms => some (ms.filterMap (fun m => transportModeValue (pyUpper m)))
    match mkTransportSearchRequest (entities.origin.getD "") (entities.destination.getD "")
        departure_date modes (entities.adults.getD 1) (entities.children.getD 0) with
    | .error e => (.error e, 0)
    | .ok request =>
      match po.transportSearch request with
      | .ok response =>
        (.ok ⟨"transport", some (some response), some "Transport options retrieved successfully"⟩, 1)
      | .error e => (.error e, 1)

/-- `TravelHandler._handle_hotel_search`. -/
def handle_hotel_search (_entities : Entities) : Except String Envelope × Nat :=
  (.ok ⟨"hotel", some none, some "Hotel search functionality coming soon"⟩, 0)

/-- `TravelHandler._handle_attraction_search`. -/
def handle_attraction_search (_entities : Entities) : Except String Envelope × Nat :=
  (.ok ⟨"attraction", some none, some "Attraction search functionality coming soon"⟩, 0)

/-- `TravelHandler._handle_seasonal_advice`. -/
def handle_seasonal_advice (_entities : Entities) : Except String Envelope × Nat :=
  (.ok ⟨"seasonal_advice", some none, some "Seasonal advice functionality coming soon"⟩, 0)

/-- The body of the `try` block of `process_travel_intent`: the intent switch. -/
def runIntent (po : Providers) (today : PyDate) (intent : String) (entities : Entities) :
    Except String Envelope × Nat :=
  if intent = "flight" then handle_flight_search po today entities
  else if intent = "hotel" then handle_hotel_search entities
  else if intent = "restaurant" then handle_restaurant_search po entities
  else if intent = "attraction" then handle_attraction_search entities
  else if intent = "transport" then handle_transport_search po today entities
  else if intent = "seasonal_advice" then handle_seasonal_advice entities
  else (.ok ⟨"general", some none, none⟩, 0)

/-- `TravelHandler.process_travel_intent`: the intent switch wrapped in
`try/except Exception`, which converts any raised error into a
`{type: "error", message: str(e)}` envelope (no `"data"` key).  The
`Except` in the result records whether an exception escapes to the caller;
the call count records how many provider searches ran. -/
def process_travel_intent (po : Providers) (today : PyDate) (intent : String)
    (entities : Entities) : Except String Envelope × Nat :=
  match runIntent po today intent entities with
  | (.ok env, n) => (.ok env, n)
  | (.error e, n) => (.ok ⟨"error", none, some e⟩, n)

/-! ### Entity extraction (`src/utils/context.py`, `extract_entities`)

The ChatGPT call (prompt construction plus `generate_response` plus digging
`response["choices"][0]["message"]["content"]` out of the reply, all inside
the outer `try`) is modelled as an oracle `gw : Except String String` giving
either the model's response text or a raised error.  `json.loads` is a
standard-library collaborator, modelled as an oracle
`jsonParse : String → Option Entities` (`none` = `JSONDecodeError`; a
successful parse of a `{...}` slice is an object, i.e. an entity map). -/

/-- The degraded result `{"intent": "general"}`. -/
def generalEntities : Entities := { intent := some "general" }

/-- `utils.context.extract_entities`: slice the response text from the first
`'{'` to the last `'}'` (Python `find` / `rfind` with `-1` for absence) and
JSON-parse the slice; on a failed parse, an absent slice, or a failed gateway
call, degrade to `{"intent": "general"}`. -/
def extract_entities (gw : Except String String)
    (jsonParse : String → Option Entities) : Entities :=
  match gw with
  | .error _ => generalEntities
  | .ok content =>
    let cs := content.toList
    let json_start : Int := findCh '\x7b' cs
    let json_end : Int := rfindCh '\x7d' cs + 1
    if 0 ≤ json_start ∧ json_start < json_end then
      let json_str := String.mk ((cs.drop json_start.toNat).take (json_end - json_start).toNat)
      match jsonParse json_str with
      | some entities => entities
      | none => generalEntities
    else generalEntities

/-! ### `LinkProcessor` (`src/link_processor.py`)

The three regex patterns are embedded as explicit matchers with Python `re`
semantics (leftmost match, non-greedy `.*?` backtracking, `.` not matching a
newline, greedy classes, `findall` resuming after each whole match). -/

/-- A `{url, text, type}` link dictionary. -/
structure Link where
  url : String
  text : String
  type : String
deriving DecidableEq, Repr

/-- Matcher for `(.*?)>` (non-greedy, `.` excludes newline): the shortest
prefix of non-newline characters followed by `'>'`.  Returns the captured
group and the remainder after the `'>'`. -/
def scanToGt : List Char → Option (List Char × List Char)
  | [] => none
  | c :: cs =>
    if c = '>' then some ([], cs)
    else if c = '\n' then none
    else
      match scanToGt cs with
      | some (g, r) => some (c :: g, r)
      | none => none

/-- Matcher for `(.*?)\|(.*?)>` (non-greedy with backtracking over the `'|'`
position): returns both captured groups and the remainder after the `'>'`. -/
def scanToBarGt : List Char → Option (List Char × List Char × List Char)
  | [] => none
  | c :: cs =>
    if c = '\n' then none
    else if c = '|' then
      match scanToGt cs with
      | some (g2, r) => some ([], g2, r)
      | none =>
        match scanToBarGt cs with
        | some (g1, g2, r) => some (c :: g1, g2, r)
        | none => none
    else
      match scanToBarGt cs with
      | some (g1, g2, r) => some (c :: g1, g2, r)
      | none => none

/-- Attempt the specific-marker pattern `<link:(.*?)\|(.*?)>` at the head of
the input; on success return `(url group, text group, rest)`. -/
def matchSpecificAt (cs : List Char) : Option (List Char × List Char × List Char) :=
  match cs with
  | '<' :: 'l' :: 'i' :: 'n' :: 'k' :: ':' :: rest => scanToBarGt rest
  | _ => none

theorem scanToGt_rest_lt {cs g r : List Char} (h : scanToGt cs = some (g, r)) :
    r.length < cs.length := by
  induction cs generalizing g r with
  | nil => simp [scanToGt] at h
  | cons c cs ih =>
    simp only [scanToGt] at h
    by_cases hgt : c = '>'
    · simp [hgt] at h
      simp [← h.2]
    · by_cases hnl : c = '\n'
      · simp [hgt, hnl] at h
      · simp only [hgt, hnl, if_false] at h
        cases hrec : scanToGt cs with
        | none => rw [hrec] at h; simp at h
        | some p =>
          obtain ⟨g', r'⟩ := p
          rw [hrec] at h
          simp at h
          have := ih hrec
          rw [← h.2]
          simp only [List.length_cons]
          omega

theorem scanToBarGt_rest_lt {cs g1 g2 r : List Char}
    (h : scanToBarGt cs = some (g1, g2, r)) : r.length < cs.length := by
  induction cs generalizing g1 g2 r with
  | nil => simp [scanToBarGt] at h
  | cons c cs ih =>
    simp only [scanToBarGt] at h
    by_cases hnl : c = '\n'
    · simp [hnl] at h
    · by_cases hbar : c = '|'
      · simp only [hnl, hbar, if_true, if_false] at h
        cases hg2 : scanToGt cs with
        | some p =>
          obtain ⟨g', r'⟩ := p
          rw [hg2] at h
          simp at h
          have := scanToGt_rest_lt hg2
          rw [← h.2.2]
          simp only [List.length_cons]
          omega
        | none =>
          rw [hg2] at h
          cases hrec : scanToBarGt cs with
          | none => rw [hrec] at h; simp at h
          | some q =>
            obtain ⟨a, b, r'⟩ := q
            rw [hrec] at h
            simp at h
            have := ih hrec
            rw [← h.2.2]
            simp only [List.length_cons]
            omega
      · simp only [hnl, hbar, if_false] at h
        cases hrec : scanToBarGt cs with
        | none => rw [hrec] at h; simp at h
        | some q =>
          obtain ⟨a, b, r'⟩ := q
          rw [hrec] at h
          simp at h
          have := ih hrec
          rw [← h.2.2]
          simp only [List.length_cons]
          omega

/-- One step of `re.sub(r'<link:(.*?)\|(.*?)>', r'\2', text)`: scan left to
right, replacing each non-overlapping match by its second group.  `fuel`
bounds the recursion; `fuel = cs.length` always suffices because every step
consumes at least one character, and on exhaustion the remaining input is
returned unchanged (reachable only for empty input). -/
def subSpecificAux (fuel : Nat) (cs : List Char) : List Char :=
  match fuel with
  | 0 => cs
  | fuel + 1 =>
    match cs with
    | [] => []
    | c :: rest =>
      match matchSpecificAt (c :: rest) with
      | some (_, g2, r) => g2 ++ subSpecificAux fuel r
      | none => c :: subSpecificAux fuel rest

/-- `LinkProcessor.format_response_with_links`. -/
def format_response_with_links (text : String) : String :=
  String.mk (subSpecificAux text.toList.length text.toList)

/-- `re.findall(r'<link:(.*?)\|(.*?)>', text)`: the `(url, text)` group pairs
of all non-overlapping matches, left to right. -/
def findallSpecific (fuel : Nat) (cs : List Char) : List (String × String) :=
  match fuel with
  | 0 => []
  | fuel + 1 =>
    match cs with
    | [] => []
    | c :: rest =>
      match matchSpecificAt (c :: rest) with
      | some (g1, g2, r) => (String.mk g1, String.mk g2) :: findallSpecific fuel r
      | none => findallSpecific fuel rest

/-- Attempt the generic-marker pattern `<Links to ([^>]+)>` at the head of the
input: the literal `"<Links to "`, then a maximal nonempty run of non-`'>'`
characters, then `'>'`. -/
def matchGenericAt (cs : List Char) : Option (List Char × List Char) :=
  if startsWithL ("<Links to ".toList) cs then
    let rest := cs.drop 10
    let run := rest.takeWhile (fun c => c ≠ '>')
    if run.isEmpty then none
    else
      match rest.drop run.length with
      | '>' :: r => some (run, r)
      | _ => none
  else none

/-- `re.findall(r'<Links to ([^>]+)>', text)`: the purpose groups of all
non-overlapping matches, left to right. -/
def findallGeneric (fuel : Nat) (cs : List Char) : List String :=
  match fuel with
  | 0 => []
  | fuel + 1 =>
    match cs with
    | [] => []
    | c :: rest =>
      match matchGenericAt (c :: rest) with
      | some (run, r) => String.mk run :: findallGeneric fuel r
      | none => findallGeneric fuel rest

/-- `LinkProcessor._generate_placeholder_url`. -/
def generate_placeholder_url (purpose : String) : String :=
  let p := stripStr (pyLower purpose)
  if containsStr p "flight" then "https://www.skyscanner.com/"
  else if containsStr p "hotel" then "https://www.booking.com/"
  else if containsStr p "restaurant" || containsStr p "dining" || containsStr p "reservation" then
    "https://www.opentable.com/"
  else if containsStr p "attraction" || containsStr p "place" || containsStr p "these places" then
    "https://www.tripadvisor.com/"
  else if containsStr p "transport" then "https://www.rome2rio.com/"
  else "https://www.google.com/travel"

/-! #### Heuristic place-mention scan

`re.search(r'in ([A-Za-z\s]+)[\.\,]', text)` and
`re.findall(r'((?:[A-Z][a-z]+\s*)+)(?:\(|\,|\s+and\s+|\.|\s+is)', text)`
with Python backtracking semantics: greedy quantifiers try longest first, a
`+` over a group prefers more repetitions, alternations are tried left to
right, and later choice points backtrack before earlier ones. -/

/-- Letter or whitespace, the class `[A-Za-z\s]`. -/
def isAlphaSpace (c : Char) : Bool :=
  ('A' ≤ c && c ≤ 'Z') || ('a' ≤ c && c ≤ 'z') || isSpaceCh c

/-- ASCII uppercase `[A-Z]`. -/
def isUpperCh (c : Char) : Bool :=
  'A' ≤ c && c ≤ 'Z'

/-- ASCII lowercase `[a-z]`. -/
def isLowerCh (c : Char) : Bool :=
  'a' ≤ c && c ≤ 'z'

/-- Attempt `in ([A-Za-z\s]+)[\.\,]` at the head of the input.  The run of
letters/whitespace is maximal; shorter runs cannot be followed by `'.'`/`','`
(those characters are outside the class), so no backtracking arises. -/
def matchLocationAt (cs : List Char) : Option (List Char) :=
  match cs with
  | 'i' :: 'n' :: ' ' :: rest =>
    let run := rest.takeWhile isAlphaSpace
    if run.isEmpty then none
    else
      match rest.drop run.length with
      | '.' :: _ => some run
      | ',' :: _ => some run
      | _ => none
  | _ => none

/-- `re.search(r'in ([A-Za-z\s]+)[\.\,]', text)`: group 1 of the leftmost
match, if any. -/
def searchLocation : List Char → Option (List Char)
  | [] => none
  | c :: cs =>
    match matchLocationAt (c :: cs) with
    | some run => some run
    | none => searchLocation cs

/-- The list `n, n-1, …, k` (empty when `n < k`). -/
def countdown (n k : Nat) : List Nat :=
  (List.range (n + 1 - k)).map (fun i => n - i)

/-- The candidate ways to match one unit `[A-Z][a-z]+\s*` at the head of the
input, as `(consumed, rest)` pairs in backtracking order: the lowercase run
longest first and, varying faster, the whitespace run longest first. -/
def unitCandidates (cs : List Char) : List (List Char × List Char) :=
  match cs with
  | [] => []
  | c :: rest =>
    if isUpperCh c then
      let lmax := (rest.takeWhile isLowerCh).length
      (countdown lmax 1).flatMap (fun llen =>
        let afterL := rest.drop llen
        let smax := (afterL.takeWhile isSpaceCh).length
        (countdown smax 0).map (fun slen =>
          (c :: rest.take llen ++ afterL.take slen, afterL.drop slen)))
    else []

/-- Attempt the tail alternation `(?:\(|\,|\s+and\s+|\.|\s+is)` at the head of
the input, returning the number of characters it consumes.  Alternatives are
tried left to right; inside `\s+and\s+` and `\s+is` the whitespace runs are
maximal (whitespace is disjoint from `'a'`/`'i'`, so no backtracking arises).
-/
def matchPlaceTail (cs : List Char) : Option Nat :=
  match cs with
  | '(' :: _ => some 1
  | ',' :: _ => some 1
  | _ =>
    let s1 := (cs.takeWhile isSpaceCh).length
    let afterS := cs.drop s1
    if 1 ≤ s1 && startsWithL ['a', 'n', 'd'] afterS &&
        1 ≤ ((afterS.drop 3).takeWhile isSpaceCh).length then
      some (s1 + 3 + ((afterS.drop 3).takeWhile isSpaceCh).length)
    else
      match cs with
      | '.' :: _ => some 1
      | _ =>
        if 1 ≤ s1 && startsWithL ['i', 's'] afterS then some (s1 + 2)
        else none

/-- Continue matching `(?:[A-Z][a-z]+\s*)*` followed by the tail alternation:
prefer consuming another unit (each unit candidate in greedy order, with all
its continuations) over stopping and matching the tail.  Returns the further
group characters consumed and the remainder after the tail.  `fuel` bounds
the number of units; each unit consumes at least two characters, so
`fuel = cs.length` suffices. -/
def placeCont (fuel : Nat) (cs : List Char) : Option (List Char × List Char) :=
  let stop : Option (List Char × List Char) :=
    (matchPlaceTail cs).map (fun n => ([], cs.drop n))
  match fuel with
  | 0 => stop
  | fuel + 1 =>
    match (unitCandidates cs).findSome? (fun p =>
        (placeCont fuel p.2).map (fun q => (p.1 ++ q.1, q.2))) with
    | some x => some x
    | none => stop

/-- Attempt `((?:[A-Z][a-z]+\s*)+)(?:\(|\,|\s+and\s+|\.|\s+is)` at the head of
the input: at least one unit, then the tail.  Returns group 1 and the
remainder after the whole match. -/
def matchPlaceAt (fuel : Nat) (cs : List Char) : Option (List Char × List Char) :=
  (unitCandidates cs).findSome? (fun p =>
    (placeCont fuel p.2).map (fun q => (p.1 ++ q.1, q.2)))

/-- `re.findall` for the place pattern: group 1 of every non-overlapping
match, scanning left to right and resuming after each whole match. -/
def findallPlaces (fuel : Nat) (cs : List Char) : List String :=
  match fuel with
  | 0 => []
  | fuel + 1 =>
    match cs with
    | [] => []
    | c :: rest =>
      match matchPlaceAt (c :: rest).length (c :: rest) with
      | some (g, r) => String.mk g :: findallPlaces fuel r
      | none => findallPlaces fuel rest

/-- The stoplist filtered out of place matches. -/
def placeStoplist : List String :=
  ["New York", "United States", "America"]

/-- The cleanup loop over place matches: strip each, keep it when longer than
3 characters and not on the stoplist. -/
def cleanPlaces (found : List String) : List String :=
  found.foldl (fun acc place =>
    let place := stripStr place
    if 3 < place.length && place ∉ placeStoplist then acc ++ [place] else acc) []

/-- `LinkProcessor.extract_links`, transcribed with the same accumulator
appends as the Python loops.  The `try/except` wrapper returning `[]` cannot
fire in this pure embedding (no modelled operation raises). -/
def extract_links (text : String) : List Link :=
  let cs := text.toList
  let links : List Link := []
  let links := (findallGeneric cs.length cs).foldl (fun acc purpose =>
    acc ++ [⟨generate_placeholder_url purpose, "Find " ++ purpose, "general"⟩]) links
  let links := (findallSpecific cs.length cs).foldl (fun acc p =>
    acc ++ [⟨p.1, p.2, "specific"⟩]) links
  if containsStr (pyLower text) "places to visit" || containsStr (pyLower text) "attractions" then
    let location := match searchLocation cs with
      | some run => String.mk run
      | none => "the area"
    let places := cleanPlaces (findallPlaces cs.length cs)
    let links := (places.take 3).foldl (fun acc place =>
      acc ++ [⟨"https://www.google.com/search?q=" ++ place ++ "+" ++ location,
              "Learn about " ++ place, "attraction"⟩]) links
    links ++ [⟨"https://www.google.com/search?q=things+to+do+in+" ++ replaceSpacePlus location,
               "Explore " ++ location, "general"⟩]
  else links

/-! ### `EnhancedConversationService.process_message`
(`src/enhanced_conversation.py`)

A conversation turn `{role, content}` and the per-user context.  The stages
with external effects are oracles: `gwExtract` is the entity-extraction
ChatGPT call (see `extract_entities`), the dispatcher runs through
`process_travel_intent` with provider oracles, and `synth` is
`_generate_response` (ChatGPT call, content extraction and the
attraction-marker post-processing), which returns the reply text or raises.
`now` stands for `datetime.now()`. -/

/-- One `{"role": …, "content": …}` history entry. -/
structure Turn where
  role : String
  content : String
deriving DecidableEq, Repr

/-- `models.user.UserContext`, reduced to the fields the orchestrator touches. -/
structure UserContext where
  user_id : String
  conversation_history : List Turn := []
  last_interaction : Option PyDateTime := none
deriving DecidableEq, Repr

/-- The `{text, links, context}` result of `process_message`. -/
structure ProcessResult where
  text : String
  links : List Link
  context : UserContext
deriving Repr

/-- The fixed apology text built in the `except` branch of `process_message`
from the name of the exception type. -/
def apologyText (errorType : String) : String :=
  "I'm having trouble processing your request. There was an error: " ++ errorType ++
    ". Please try again in a moment, or let me know if I can help with something else."

/-- `EnhancedConversationService.process_message`: create the context when
absent, append the user turn and stamp `last_interaction`, then inside
`try`: extract entities, dispatch the intent, synthesize the reply, append
the assistant turn and extract links (the handler envelope never carries a
`"links"` key, so `handler_response.get("links", [])` is always `[]` and the
link scan of the reply runs).  Any exception is converted into an apology
reply with no links and the already-mutated context. -/
def process_message (gwExtract : Except String String)
    (jsonParse : String → Option Entities) (po : Providers) (today : PyDate)
    (synth : String → Entities → Envelope → UserContext → Except String String)
    (now : PyDateTime) (user_id : String) (message : String)
    (context? : Option UserContext) : ProcessResult :=
  let context := context?.getD { user_id := user_id }
  let context := { context with
    conversation_history := context.conversation_history ++ [⟨"user", message⟩],
    last_interaction := some now }
  let attempt : Except String (String × UserContext) := do
    let entities := extract_entities gwExtract jsonParse
    let intent := entities.intent.getD "general"
    let handler_response ← (process_travel_intent po today intent entities).1
    let text ← synth message entities handler_response context
    pure (text, { context with
      conversation_history := context.conversation_history ++ [⟨"assistant", text⟩] })
  match attempt with
  | .ok (text, context) =>
    let links : List Link := []
    let links := if links.isEmpty then extract_links text else links
    ⟨text, links, context⟩
  | .error e => ⟨apologyText e, [], context⟩

/-! ### Shared concrete instances for witnesses and counterexamples -/

/-- Providers whose every search raises (models a provider outage). -/
def failingProviders : Providers :=
  ⟨fun _ => .error "ProviderError", fun _ => .error "ProviderError",
   fun _ => .error "ProviderError"⟩

/-- A fixed current date for concrete evaluations. -/
def today₀ : PyDate := ⟨2026, 10, 12⟩

/-- Entities carrying an origin and a destination. -/
def entsOD : Entities := { origin := some "New York", destination := some "Paris" }

/-! ### Claim C1 — fallback chain and repeated model identities -/

/-- Claim C1 as stated is false: with the primary model equal to the generic
fallback identity `"gpt-3.5-turbo"` and every call failing, the chain attempts
`"gpt-3.5-turbo"` twice (the final fallback attempt is not guarded against
the primary identity). -/
theorem c1_no_retry_counterexample :
    (generate_response (fun _ => .error "Timeout") "gpt-3.5-turbo").2 =
      ["gpt-3.5-turbo", "gpt-3.5-turbo-0125", "gpt-3.5-turbo"] ∧
    ¬ (generate_response (fun _ => .error "Timeout") "gpt-3.5-turbo").2.Nodup := by
  exact ⟨rfl, by decide⟩

/-- Claim C1, amended: for every request whose primary model is not the
generic fallback identity `"gpt-3.5-turbo"`, no model identity already
attempted in that request is attempted again (in particular, a primary equal
to the first fallback identity `"gpt-3.5-turbo-0125"` is not retried); when
the primary model is `"gpt-3.5-turbo"` itself and fails, that identity is
attempted again as the final fallback. -/
theorem c1_no_retry_amended (call : String → Except String String) (model : String)
    (h : model ≠ genericModel) : (generate_response call model).2.Nodup := by
  unfold generate_response
  have hfg : fallbackModel ≠ genericModel := by decide
  cases hc : call model with
  | ok r => simp
  | error e =>
    by_cases hm : model = fallbackModel
    · simp only [hm, if_pos rfl]
      cases hg : call genericModel <;> simp [List.nodup_cons, hfg]
    · simp only [if_neg hm]
      cases hf : call fallbackModel with
      | ok r => simp [List.nodup_cons, hm]
      | error e' =>
        cases hg : call genericModel <;>
          simp [List.nodup_cons, hm, h, hfg]

/-- Witness for C1 (amended): a primary equal to the first fallback identity,
with every call failing, yields a duplicate-free attempt trace. -/
theorem c1_no_retry_amended_witness :
    (generate_response (fun _ => .error "Timeout") "gpt-3.5-turbo-0125").2.Nodup :=
  c1_no_retry_amended (fun _ => .error "Timeout") "gpt-3.5-turbo-0125" (by decide)

/-! ### Claim C7 — fallback chain result and surfaced error -/

/-- Claim C7: when the primary attempt fails and the first fallback attempt
fails, then (a) if the final generic attempt succeeds the caller receives its
response with no error, and (b) if the final generic attempt also fails the
error surfaced to the caller is the primary model's original failure. -/
theorem c7_fallback_result (call : String → Except String String) (model : String)
    (e e1 : String) (hp : call model = .error e) (h1 : call fallbackModel = .error e1) :
    (∀ r, call genericModel = .ok r → (generate_response call model).1 = .ok r) ∧
    (∀ e2, call genericModel = .error e2 → (generate_response call model).1 = .error e) := by
  constructor
  · intro r hg
    unfold generate_response
    rw [hp]
    by_cases hm : model = fallbackModel
    · subst hm
      simp [hg]
    · simp only [if_neg hm]
      rw [h1, hg]
  · intro e2 hg
    unfold generate_response
    rw [hp]
    by_cases hm : model = fallbackModel
    · subst hm
      simp [hg]
    · simp only [if_neg hm]
      rw [h1, hg]

/-- Witness for C7: with a primary and first fallback that fail and a generic
fallback that succeeds, the caller gets the generic response; with every
attempt failing, the caller gets the primary error. -/
theorem c7_fallback_result_witness :
    (generate_response
      (fun m => if m = "gpt-3.5-turbo" then .ok "pong" else .error "Timeout")
      "gpt-4").1 = .ok "pong" ∧
    (generate_response (fun _ => .error "Timeout") "gpt-4").1 = .error "Timeout" :=
  ⟨(c7_fallback_result
      (fun m => if m = "gpt-3.5-turbo" then .ok "pong" else .error "Timeout")
      "gpt-4" "Timeout" "Timeout" rfl rfl).1 "pong" rfl,
   (c7_fallback_result (fun _ => .error "Timeout") "gpt-4" "Timeout" "Timeout"
      rfl rfl).2 "Timeout" rfl⟩

/-! ### Claim C2 — presence of the `message` field in dispatch envelopes -/

theorem handle_flight_search_ok {po : Providers} {today : PyDate} {ents : Entities}
    {env : Envelope} {n : Nat} (h : handle_flight_search po today ents = (.ok env, n)) :
    env.message.isSome ∧ env.type = "flight" := by
  unfold handle_flight_search at h
  split at h
  · injection h with h1 h2
    injection h1 with h1
    subst h1
    exact ⟨rfl, rfl⟩
  · dsimp only at h
    split at h
    · simp at h
    · split at h
      · simp at h
        rw [← h.1]
        exact ⟨rfl, rfl⟩
      · simp at h

theorem handle_restaurant_search_ok {po : Providers} {ents : Entities}
    {env : Envelope} {n : Nat} (h : handle_restaurant_search po ents = (.ok env, n)) :
    env.message.isSome ∧ env.type = "restaurant" := by
  unfold handle_restaurant_search at h
  split at h
  · injection h with h1 h2
    injection h1 with h1
    subst h1
    exact ⟨rfl, rfl⟩
  · dsimp only at h
    split at h
    · simp at h
      rw [← h.1]
      exact ⟨rfl, rfl⟩
    · simp at h

theorem handle_transport_search_ok {po : Providers} {today : PyDate} {ents : Entities}
    {env : Envelope} {n : Nat} (h : handle_transport_search po today ents = (.ok env, n)) :
    env.message.isSome ∧ env.type = "transport" := by
  unfold handle_transport_search at h
  split at h
  · injection h with h1 h2
    injection h1 with h1
    subst h1
    exact ⟨rfl, rfl⟩
  · dsimp only at h
    repeat' split at h
    all_goals simp at h
    all_goals rw [← h.1]
    all_goals exact ⟨rfl, rfl⟩

/-- Claim C2 as stated is false: for the `general` intent, dispatch returns
`{"type": "general", "data": None}` with no `message` key at all. -/
theorem c2_message_counterexample :
    (process_travel_intent failingProviders today₀ "general" {}).1 =
      .ok ⟨"general", some none, none⟩ ∧
    (Envelope.mk "general" (some none) none).message = none :=
  ⟨rfl, rfl⟩

/-- Claim C2, amended: every envelope returned by dispatch carries a
`message` except the one produced by the `general`/unknown-intent branch,
which has type `"general"`, a `data` key holding `None`, and no `message`
key; equivalently, the returned envelope has a message exactly when its type
is not `"general"`. -/
theorem c2_message_amended (po : Providers) (today : PyDate) (intent : String)
    (ents : Entities) (env : Envelope) (n : Nat)
    (h : process_travel_intent po today intent ents = (.ok env, n)) :
    env.message.isSome ↔ env.type ≠ "general" := by
  rcases hE : runIntent po today intent ents with ⟨r, k⟩
  unfold process_travel_intent at h
  rw [hE] at h
  cases r with
  | error e =>
    simp at h
    rw [← h.1]
    simp
  | ok env0 =>
    simp at h
    rw [← h.1]
    unfold runIntent at hE
    repeat' split at hE
    · have := handle_flight_search_ok hE
      simp [this.1, this.2]
    · simp [handle_hotel_search] at hE
      simp [← hE.1]
    · have := handle_restaurant_search_ok hE
      simp [this.1, this.2]
    · simp [handle_attraction_search] at hE
      simp [← hE.1]
    · have := handle_transport_search_ok hE
      simp [this.1, this.2]
    · simp [handle_seasonal_advice] at hE
      simp [← hE.1]
    · simp at hE
      simp [← hE.1]

/-- Witness for C2 (amended): the envelope dispatched for the `hotel` intent
has a message and a non-`general` type. -/
theorem c2_message_amended_witness :
    (Envelope.mk "hotel" (some none) (some "Hotel search functionality coming soon")).message.isSome ↔
    (Envelope.mk "hotel" (some none) (some "Hotel search functionality coming soon")).type ≠ "general" :=
  c2_message_amended failingProviders today₀ "hotel" {} _ 0 rfl

/-! ### Claim C3 — provider failures and dispatch -/

/-- Claim C3 as stated is false: with a flight dispatch whose provider search
raises `"ProviderError"`, `process_travel_intent` returns normally (no raised
error reaches the orchestrator) with a `{type: "error", message: str(e)}`
envelope — the failure is swallowed into a returned envelope. -/
theorem c3_propagation_counterexample :
    (process_travel_intent failingProviders today₀ "flight" entsOD).1 =
      .ok ⟨"error", none, some "ProviderError"⟩ ∧
    (process_travel_intent failingProviders today₀ "flight" entsOD).1 ≠
      .error "ProviderError" := by
  refine ⟨rfl, ?_⟩
  intro hcontra
  rw [show (process_travel_intent failingProviders today₀ "flight" entsOD).1 =
        .ok ⟨"error", none, some "ProviderError"⟩ from rfl] at hcontra
  exact Except.noConfusion hcontra

/-- Claim C3, amended: dispatch catches every error raised inside the intent
switch (provider failures included) and converts it into a returned
`{type: "error", message: str(e)}` envelope with no `data` key; no error
propagates to the caller of dispatch. -/
theorem c3_propagation_amended (po : Providers) (today : PyDate) (intent : String)
    (ents : Entities) (e : String) (n : Nat)
    (h : runIntent po today intent ents = (.error e, n)) :
    process_travel_intent po today intent ents = (.ok ⟨"error", none, some e⟩, n) := by
  unfold process_travel_intent
  rw [h]

/-- Witness for C3 (amended): the failing flight provider search is converted
into an error envelope. -/
theorem c3_propagation_amended_witness :
    process_travel_intent failingProviders today₀ "flight" entsOD =
      (.ok ⟨"error", none, some "ProviderError"⟩, 1) :=
  c3_propagation_amended failingProviders today₀ "flight" entsOD "ProviderError" 1 rfl

/-! ### Claim C6 — missing origin/destination short-circuits the provider -/

/-- Claim C6: for every flight or transport dispatch whose `origin` or
`destination` slot is absent or empty, dispatch returns an envelope with a
`data` key holding `None` and an explanatory message, and issues zero
provider search calls. -/
theorem c6_missing_slots (po : Providers) (today : PyDate) (ents : Entities)
    (h : isFalsy ents.origin = true ∨ isFalsy ents.destination = true) :
    process_travel_intent po today "flight" ents =
      (.ok ⟨"flight", some none, some "Missing origin or destination for flight search"⟩, 0) ∧
    process_travel_intent po today "transport" ents =
      (.ok ⟨"transport", some none, some "Missing origin or destination for transport search"⟩, 0) := by
  have hb : (isFalsy ents.origin || isFalsy ents.destination) = true := by
    rcases h with h | h <;> simp [h]
  constructor <;>
    simp [process_travel_intent, runIntent, handle_flight_search,
      handle_transport_search, hb]

/-- Witness for C6: entities with no origin slot at all. -/
theorem c6_missing_slots_witness :
    process_travel_intent failingProviders today₀ "flight" {} =
      (.ok ⟨"flight", some none, some "Missing origin or destination for flight search"⟩, 0) ∧
    process_travel_intent failingProviders today₀ "transport" {} =
      (.ok ⟨"transport", some none, some "Missing origin or destination for transport search"⟩, 0) :=
  c6_missing_slots failingProviders today₀ {} (Or.inl rfl)

/-! ### Claim C4 — departure-date parsing order and defaults -/

/-- Modelled from the spec: the parse order claim C4 states for
departure-date strings — a calendar-date parse is attempted first, and only
on its failure is a datetime parse attempted — using the code's own
date-to-datetime conversion (combine with 12:00). -/
def parse_datetime_dateFirst (datetimeStr : Option String) : Option PyDateTime :=
  match datetimeStr with
  | none => none
  | some s =>
    if s = "" then none
    else
      match pyDateFromISO s with
      | some d => some ⟨d, 12, 0, 0⟩
      | none => pyDatetimeFromISO s

/-- Claim C4 as stated is false: on the date-only string `"2024-05-01"` the
code's `_parse_datetime` succeeds via the datetime parse (midnight), whereas
the claimed date-first order would produce that date at 12:00; the two
orders are observably different. -/
theorem c4_parse_order_counterexample :
    parse_datetime (some "2024-05-01") = some ⟨⟨2024, 5, 1⟩, 0, 0, 0⟩ ∧
    parse_datetime_dateFirst (some "2024-05-01") = some ⟨⟨2024, 5, 1⟩, 12, 0, 0⟩ ∧
    parse_datetime (some "2024-05-01") ≠ parse_datetime_dateFirst (some "2024-05-01") := by
  refine ⟨rfl, rfl, ?_⟩
  decide

/-- Claim C4, amended: for transport departure-date strings a *datetime*
parse is attempted first; only if that fails is a calendar-date parse
attempted, whose result is combined with 12:00; if both fail the value is
treated as absent (no error) and the transport default (tomorrow at 12:00)
applies.  For flight departure-date strings only a calendar-date parse is
ever attempted; on its failure the value is treated as absent and the flight
default (tomorrow) applies. -/
theorem c4_parse_order_amended :
    (∀ s dt, pyDatetimeFromISO s = some dt → parse_datetime (some s) = some dt) ∧
    (∀ s, s ≠ "" → pyDatetimeFromISO s = none →
      parse_datetime (some s) = (pyDateFromISO s).map (fun d => ⟨d, 12, 0, 0⟩)) ∧
    (∀ po today ents s, ents.departure_date = some s → pyDatetimeFromISO s = none →
      pyDateFromISO s = none →
      handle_transport_search po today ents =
        handle_transport_search po today { ents with departure_date := none }) ∧
    (∀ po today ents s, ents.departure_date = some s → pyDateFromISO s = none →
      handle_flight_search po today ents =
        handle_flight_search po today { ents with departure_date := none }) := by
  have hempty_dt : pyDatetimeFromISO "" = none := rfl
  have hparse_none : ∀ s, pyDatetimeFromISO s = none → pyDateFromISO s = none →
      parse_datetime (some s) = none := by
    intro s h1 h2
    unfold parse_datetime
    by_cases hs : s = ""
    · simp [hs]
    · simp only [hs, if_neg, if_false]
      rw [h1]
      unfold parse_date
      simp only [hs, if_false]
      rw [h2]
  refine ⟨?_, ?_, ?_, ?_⟩
  · intro s dt hdt
    unfold parse_datetime
    by_cases hs : s = ""
    · rw [hs] at hdt
      rw [hempty_dt] at hdt
      exact Option.noConfusion hdt
    · simp only [hs, if_false]
      rw [hdt]
  · intro s hs h1
    unfold parse_datetime
    simp only [hs, if_false]
    rw [h1]
    unfold parse_date
    simp only [hs, if_false]
    cases hd : pyDateFromISO s <;> simp
  · intro po today ents s hdep h1 h2
    unfold handle_transport_search
    rw [hdep, hparse_none s h1 h2]
    simp [parse_datetime]
  · intro po today ents s hdep h2
    unfold handle_flight_search
    rw [hdep]
    have hpd : parse_date (some s) = none := by
      unfold parse_date
      by_cases hs : s = ""
      · simp [hs]
      · simp only [hs, if_false]
        rw [h2]
    rw [hpd]
    simp [parse_date]

/-- Witness for C4 (amended): a full datetime string parses directly; an
unparseable string falls through both parses; a transport dispatch and a
flight dispatch with an unparseable departure date behave exactly as if the
slot were absent. -/
theorem c4_parse_order_amended_witness :
    parse_datetime (some "2024-05-01T08:30:00") = some ⟨⟨2024, 5, 1⟩, 8, 30, 0⟩ ∧
    parse_datetime (some "next friday") =
      (pyDateFromISO "next friday").map (fun d => ⟨d, 12, 0, 0⟩) ∧
    handle_transport_search failingProviders today₀
        { entsOD with departure_date := some "next friday" } =
      handle_transport_search failingProviders today₀
        { entsOD with departure_date := none } ∧
    handle_flight_search failingProviders today₀
        { entsOD with departure_date := some "2024-05-01T08:30:00" } =
      handle_flight_search failingProviders today₀
        { entsOD with departure_date := none } :=
  ⟨c4_parse_order_amended.1 "2024-05-01T08:30:00" ⟨⟨2024, 5, 1⟩, 8, 30, 0⟩ rfl,
   c4_parse_order_amended.2.1 "next friday" (by decide) rfl,
   c4_parse_order_amended.2.2.1 failingProviders today₀
     { entsOD with departure_date := some "next friday" } "next friday" rfl rfl rfl,
   c4_parse_order_amended.2.2.2 failingProviders today₀
     { entsOD with departure_date := some "2024-05-01T08:30:00" } "2024-05-01T08:30:00"
     rfl rfl⟩

/-! ### Claim C5 — synthesis failure still yields a well-formed reply -/

/-- Dispatch never raises: its result is always a returned envelope. -/
theorem process_travel_intent_ok (po : Providers) (today : PyDate) (intent : String)
    (ents : Entities) : ∃ env, (process_travel_intent po today intent ents).1 = .ok env := by
  unfold process_travel_intent
  rcases hE : runIntent po today intent ents with ⟨r, k⟩
  cases r with
  | ok env => exact ⟨env, rfl⟩
  | error e => exact ⟨⟨"error", none, some e⟩, rfl⟩

/-- Claim C5: whenever response synthesis fails (after the user turn was
appended), `process_message` still returns a well-formed `{text, links,
context}` result whose text is the apology naming the error type, whose link
list is empty, and whose returned context retains the appended user turn and
the stamped `last_interaction` — no raised fault escapes and no history
rollback happens. -/
theorem c5_synthesis_failure (gwExtract : Except String String)
    (jsonParse : String → Option Entities) (po : Providers) (today : PyDate)
    (synth : String → Entities → Envelope → UserContext → Except String String)
    (now : PyDateTime) (user_id : String) (message : String)
    (context? : Option UserContext) (err : String)
    (hs : ∀ m e hr c, synth m e hr c = .error err) :
    process_message gwExtract jsonParse po today synth now user_id message context? =
      ⟨apologyText err, [],
       { context?.getD { user_id := user_id } with
         conversation_history :=
           (context?.getD { user_id := user_id }).conversation_history ++ [⟨"user", message⟩],
         last_interaction := some now }⟩ := by
  unfold process_message
  obtain ⟨env, henv⟩ := process_travel_intent_ok po today
    ((extract_entities gwExtract jsonParse).intent.getD "general")
    (extract_entities gwExtract jsonParse)
  simp only [bind, Except.bind, henv, hs]

/-- Witness for C5: a turn whose synthesis stage always raises `ValueError`
returns the apology, no links, and the context with the user turn appended. -/
theorem c5_synthesis_failure_witness :
    process_message (.error "Timeout") (fun _ => none) failingProviders today₀
      (fun _ _ _ _ => .error "ValueError") ⟨today₀, 9, 0, 0⟩ "u1" "hi there" none =
    ⟨apologyText "ValueError", [],
     ⟨"u1", [⟨"user", "hi there"⟩], some ⟨today₀, 9, 0, 0⟩⟩⟩ :=
  c5_synthesis_failure (.error "Timeout") (fun _ => none) failingProviders today₀
    (fun _ _ _ _ => .error "ValueError") ⟨today₀, 9, 0, 0⟩ "u1" "hi there" none
    "ValueError" (fun _ _ _ _ => rfl)

/-! ### Claim C8 — entity-extraction JSON slicing and degradation -/

/-- The slice of a response text from its first `'{'` to its last `'}'`
(`content[content.find('{') : content.rfind('}') + 1]`), when the index
condition `json_start >= 0 and json_end > json_start` holds. -/
def jsonSlice (cs : List Char) : Option (List Char) :=
  let json_start := findCh '\x7b' cs
  let json_end := rfindCh '\x7d' cs + 1
  if 0 ≤ json_start ∧ json_start < json_end then
    some ((cs.drop json_start.toNat).take (json_end - json_start).toNat)
  else none

/-- Claim C8: entity extraction slices the model response from the first
`'{'` to the last `'}'` and JSON-parses the slice; when there is no such
slice, or the parse fails, or the gateway call itself fails, the result is
exactly `{"intent": "general"}` (and, the embedding being total, nothing is
raised); when the parse succeeds its object is returned. -/
theorem c8_extraction_degradation (gw : Except String String)
    (jsonParse : String → Option Entities) :
    (∀ e, gw = .error e → extract_entities gw jsonParse = generalEntities) ∧
    (∀ c, gw = .ok c → jsonSlice c.toList = none →
      extract_entities gw jsonParse = generalEntities) ∧
    (∀ c sl, gw = .ok c → jsonSlice c.toList = some sl →
      jsonParse (String.mk sl) = none →
      extract_entities gw jsonParse = generalEntities) ∧
    (∀ c sl ents, gw = .ok c → jsonSlice c.toList = some sl →
      jsonParse (String.mk sl) = some ents →
      extract_entities gw jsonParse = ents) := by
  refine ⟨?_, ?_, ?_, ?_⟩
  · intro e he
    rw [he]
    rfl
  · intro c hc hsl
    rw [hc]
    unfold extract_entities
    unfold jsonSlice at hsl
    dsimp only at hsl ⊢
    split at hsl
    · exact Option.noConfusion hsl
    · rw [if_neg (by assumption)]
  · intro c sl hc hsl hp
    rw [hc]
    unfold extract_entities
    unfold jsonSlice at hsl
    dsimp only at hsl ⊢
    split at hsl
    · injection hsl with hsl
      rw [if_pos (by assumption), hsl, hp]
    · exact Option.noConfusion hsl
  · intro c sl ents hc hsl hp
    rw [hc]
    unfold extract_entities
    unfold jsonSlice at hsl
    dsimp only at hsl ⊢
    split at hsl
    · injection hsl with hsl
      rw [if_pos (by assumption), hsl, hp]
    · exact Option.noConfusion hsl

/-- Witness for C8: a gateway failure, a brace-free response, a response
whose slice fails to parse, and a response whose slice parses, each mapped to
the documented result. -/
theorem c8_extraction_degradation_witness :
    extract_entities (.error "Timeout") (fun _ => none) = generalEntities ∧
    extract_entities (.ok "no json here") (fun _ => some {}) = generalEntities ∧
    extract_entities (.ok "bad \x7boops\x7d tail") (fun _ => none) = generalEntities ∧
    extract_entities (.ok "Sure! \x7b\"intent\": \"flight\"\x7d done")
      (fun s => if s = "\x7b\"intent\": \"flight\"\x7d" then some { intent := some "flight" } else none) =
      { intent := some "flight" } :=
  ⟨(c8_extraction_degradation (.error "Timeout") (fun _ => none)).1 "Timeout" rfl,
   (c8_extraction_degradation (.ok "no json here") (fun _ => some {})).2.1
     "no json here" rfl rfl,
   (c8_extraction_degradation (.ok "bad \x7boops\x7d tail") (fun _ => none)).2.2.1
     "bad \x7boops\x7d tail" "\x7boops\x7d".toList rfl rfl rfl,
   (c8_extraction_degradation (.ok "Sure! \x7b\"intent\": \"flight\"\x7d done")
      (fun s => if s = "\x7b\"intent\": \"flight\"\x7d" then some { intent := some "flight" } else none)).2.2.2
     "Sure! \x7b\"intent\": \"flight\"\x7d done" "\x7b\"intent\": \"flight\"\x7d".toList
     { intent := some "flight" } rfl rfl (by rfl)⟩

/-! ### Claim C9 — idempotence of `format_response_with_links` -/

/-- Whether the specific-marker pattern `<link:(.*?)\|(.*?)>` matches anywhere
in the text. -/
def hasSpecificMarkerL : List Char → Bool
  | [] => false
  | c :: cs => (matchSpecificAt (c :: cs)).isSome || hasSpecificMarkerL cs

/-- A text without a specific-marker match is left unchanged by the marker
substitution, at every fuel. -/
theorem subSpecificAux_of_noMarker (cs : List Char)
    (h : hasSpecificMarkerL cs = false) (fuel : Nat) : subSpecificAux fuel cs = cs := by
  induction cs generalizing fuel with
  | nil => cases fuel <;> rfl
  | cons c cs ih =>
    simp only [hasSpecificMarkerL, Bool.or_eq_false_iff] at h
    cases fuel with
    | zero => rfl
    | succ f =>
      cases hm : matchSpecificAt (c :: cs) with
      | some p =>
        rw [hm] at h
        simp at h
      | none =>
        simp only [subSpecificAux, hm]
        rw [ih h.2 f]

/-- Claim C9 as stated is false: stripping a specific marker can splice the
surrounding text into a fresh marker, so a second application differs —
`formatText` applied to `"<li<link:u|>nk:a|b>"` yields `"<link:a|b>"`
(itself a produced, "already formatted" text), and a further application
yields `"b"`. -/
theorem c9_idempotence_counterexample :
    format_response_with_links "<li<link:u|>nk:a|b>" = "<link:a|b>" ∧
    format_response_with_links "<link:a|b>" = "b" ∧
    format_response_with_links (format_response_with_links "<li<link:u|>nk:a|b>") ≠
      format_response_with_links "<li<link:u|>nk:a|b>" := by
  refine ⟨rfl, rfl, ?_⟩
  decide

/-- Claim C9, amended: `formatText` is idempotent on every text whose first
application leaves no `<link:URL|TEXT>` marker in the output (in particular
on any output not containing a spliced-together marker); texts where
stripping creates a new marker are the only exception. -/
theorem c9_idempotence_amended (s : String)
    (h : hasSpecificMarkerL (format_response_with_links s).toList = false) :
    format_response_with_links (format_response_with_links s) =
      format_response_with_links s := by
  unfold format_response_with_links
  exact congrArg String.mk (subSpecificAux_of_noMarker _ h _)

/-- Witness for C9 (amended): a normally formatted text is a fixed point of a
second application. -/
theorem c9_idempotence_amended_witness :
    format_response_with_links
        (format_response_with_links "go <link:https://x.example/|Book now> now") =
      format_response_with_links "go <link:https://x.example/|Book now> now" :=
  c9_idempotence_amended "go <link:https://x.example/|Book now> now" (by decide)

/-! ### Claim C10 — `extract_links` is the ordered concatenation of the
three pattern scans -/

/-- Appending one element per item to an accumulator is the accumulator
followed by the mapped list. -/
theorem foldl_append_map {α β : Type} (f : α → β) (xs : List α) :
    ∀ acc : List β, List.foldl (fun a x => a ++ [f x]) acc xs = acc ++ xs.map f := by
  induction xs with
  | nil => intro acc; simp
  | cons x xs ih =>
    intro acc
    simp only [List.foldl_cons, List.map_cons, ih]
    simp

/-- The `general`-typed links produced from the generic placeholder markers. -/
def genericLinksOf (text : String) : List Link :=
  (findallGeneric text.toList.length text.toList).map (fun purpose =>
    ⟨generate_placeholder_url purpose, "Find " ++ purpose, "general"⟩)

/-- The `specific`-typed links produced from the inline `<link:URL|TEXT>`
markers. -/
def specificLinksOf (text : String) : List Link :=
  (findallSpecific text.toList.length text.toList).map (fun p =>
    ⟨p.1, p.2, "specific"⟩)

/-- The trigger for the heuristic place scan. -/
def placeTrigger (text : String) : Bool :=
  containsStr (pyLower text) "places to visit" || containsStr (pyLower text) "attractions"

/-- The location used by the heuristic place scan (`"the area"` when no
`in <Location>.` phrase is found). -/
def heuristicLocationOf (text : String) : String :=
  match searchLocation text.toList with
  | some run => String.mk run
  | none => "the area"

/-- The heuristic place links: at most three `attraction`-typed links plus
one trailing `general`-typed explore link, or nothing when the scan is not
triggered. -/
def heuristicLinksOf (text : String) : List Link :=
  if placeTrigger text then
    ((cleanPlaces (findallPlaces text.toList.length text.toList)).take 3).map (fun place =>
      ⟨"https://www.google.com/search?q=" ++ place ++ "+" ++ heuristicLocationOf text,
       "Learn about " ++ place, "attraction"⟩) ++
    [⟨"https://www.google.com/search?q=things+to+do+in+" ++
        replaceSpacePlus (heuristicLocationOf text),
      "Explore " ++ heuristicLocationOf text, "general"⟩]
  else []

/-- Claim C10: for every text, `extract_links` returns (it is total, so
nothing is raised; the `except` branch yielding `[]` is unreachable in this
pure embedding) the concatenation of the generic-marker links, then the
specific-marker links, then the heuristic place links (empty when the
heuristic is not triggered), in that order. -/
theorem c10_extract_links_order (text : String) :
    extract_links text =
      genericLinksOf text ++ specificLinksOf text ++ heuristicLinksOf text := by
  unfold extract_links genericLinksOf specificLinksOf heuristicLinksOf
    heuristicLocationOf placeTrigger
  dsimp only
  by_cases ht :
      (containsStr (pyLower text) "places to visit" ||
        containsStr (pyLower text) "attractions") = true
  · rw [if_pos ht, if_pos ht, foldl_append_map, foldl_append_map, foldl_append_map]
    simp [List.append_assoc]
  · rw [if_neg ht, if_neg ht, foldl_append_map, foldl_append_map]
    simp

end Jetzy
